import Mathlib

/-!
Verification of the deterministic matching core of the pot-matching-engine
repository: the domain model (src/matching/domain_model.py), the three
dimension scorers (src/matching/scoring/), the composite ranker
(src/matching/scoring/composite.py) and the pairwise orchestrator
(src/matching/engine.py).

Modelling conventions:
* Python floats are modelled as rationals (ℚ); the scoring code only adds,
  multiplies, divides and clamps, so every value the program manipulates is
  an exact decimal and the rational model is faithful.
* Python `min`/`max` are `py_min`/`py_max` (explicit conditionals, which the
  kernel can evaluate, unlike the lattice operations on ℚ).
* Python `str.lower` / substring test / `str.split()` are modelled on the
  character list of the string (`py_lower`, `str_contains`, `py_split_ws`),
  because the built-in `String` position-based functions do not reduce in
  the kernel.  For the ASCII data of this repository they agree with Python.
* Python dicts are association lists with Python's insertion-order
  semantics (`dict_insert` overwrites in place, new keys append), matching
  dict iteration order.
* Python sets are `Finset String`.
* The two external collaborators (LLM extraction and sentence-transformer
  embeddings) are universally quantified oracles: `extract` enriches a
  profile, `sim` gives the cosine similarity of the embeddings of two
  texts.  The embedding cache of `embeddings.py` only affects performance:
  an oracle that is a function already models "identical text yields the
  identical vector".
-/

namespace Pot

/-- Python `min` for scores (`min(a, b)`). -/
def py_min (a b : ℚ) : ℚ := if a ≤ b then a else b

/-- Python `max` for scores (`max(a, b)`). -/
def py_max (a b : ℚ) : ℚ := if b ≤ a then a else b

/-- Python `str.lower()` (character-wise, faithful for the ASCII data used
by the domain model). -/
def py_lower (s : String) : String := String.mk (s.data.map Char.toLower)

/-- Python `needle in hay` substring containment. -/
def str_contains (hay needle : String) : Bool := decide (needle.data <:+: hay.data)

/-- Helper for `py_split_ws`: accumulate the current word (reversed). -/
def words_aux : List Char → List Char → List String
  | [], acc => if acc = [] then [] else [String.mk acc.reverse]
  | c :: cs, acc =>
    if c.isWhitespace then
      (if acc = [] then words_aux cs [] else String.mk acc.reverse :: words_aux cs [])
    else words_aux cs (c :: acc)

/-- Python `str.split()` with no argument: split on whitespace runs,
dropping empty words. -/
def py_split_ws (s : String) : List String := words_aux s.data []

/-- Python truthiness of an optional string (`None` and `""` are falsy). -/
def truthy : Option String → Bool
  | none => false
  | some s => s != ""

/-! ## Data model (src/matching/models.py)

Profiles are modelled as they stand after pydantic validation: `id` and
`stated_goal` have been normalised to strings by the model validator. -/

/-- models.py `NeedsVector`. -/
structure NeedsVector where
  primary_need : String
  need_description : String := ""
  target_counterparty_type : String := ""
  urgency : String := "exploring"
  constraints : List String := []
deriving DecidableEq

/-- models.py `ProvidesVector`. -/
structure ProvidesVector where
  primary_capability : String
  capability_description : String := ""
  evidence : List String := []
  geographic_reach : List String := []
  audience_access : List String := []
deriving DecidableEq

/-- models.py `AttendeeProfile` (validated: `id` and `stated_goal` are
plain strings).  Fields never read by the scoring core are omitted. -/
structure AttendeeProfile where
  id : String
  name : String
  title : String
  company : String
  company_description : Option String := none
  role_at_event : Option String := none
  roles_at_event : Option (List String) := none
  stated_goal : String := ""
  sector : Option String := none
  stage : Option String := none
  key_facts : List String := []
  needs_vector : Option NeedsVector := none
  provides_vector : Option ProvidesVector := none
  value_chain_positions : Option (List (String × String)) := none
deriving DecidableEq

/-- models.py `DimensionScores`. -/
structure DimensionScores where
  complementarity : ℚ := 0
  transaction_readiness : ℚ := 0
  non_obvious : ℚ := 0
deriving DecidableEq

/-- models.py `DimensionExplanations`. -/
structure DimensionExplanations where
  complementarity : String := ""
  transaction_readiness : String := ""
  non_obvious : String := ""
deriving DecidableEq

/-- models.py `ScoredPair`. -/
structure ScoredPair where
  attendee_a_id : String
  attendee_b_id : String
  scores : DimensionScores
  composite : ℚ := 0
  transaction_type : Option String := none
deriving DecidableEq

/-- models.py `MatchResult`. -/
structure MatchResult where
  pair : ScoredPair
  explanation : String := ""
  dimension_explanations : DimensionExplanations := {}
deriving DecidableEq

/-- models.py `MatchBriefing`.  The source field `matches` is renamed
`matches_list` because `matches` is a reserved word in Lean. -/
structure MatchBriefing where
  attendee_id : String
  attendee_name : String
  matches_list : List MatchResult := []
deriving DecidableEq

/-! ## Configuration (src/matching/config.py) -/

/-- config.py `DimensionWeights`. -/
structure DimensionWeights where
  complementarity : ℚ := 1/2
  transaction_readiness : ℚ := 3/10
  non_obvious : ℚ := 1/5
deriving DecidableEq

/-- config.py `ComplementarityWeights`. -/
structure ComplementarityWeights where
  needs_provides_alignment : ℚ := 1/2
  value_chain_adjacency : ℚ := 3/10
  bidirectional_multiplier : ℚ := 1/5
deriving DecidableEq

/-- config.py `Settings` (the fields the scoring core reads). -/
structure Settings where
  dimension_weights : DimensionWeights := {}
  complementarity_weights : ComplementarityWeights := {}
  bidirectional_threshold : ℚ := 3/10
  bidirectional_boost : ℚ := 13/10
  top_k : Nat := 4
deriving DecidableEq

/-- The default `settings` object of config.py. -/
def defaultSettings : Settings := {}

/-! ## Domain model, layer 1 (src/matching/domain_model.py) -/

/-- domain_model.py `VALUE_CHAINS` (an insertion-ordered dict). -/
def VALUE_CHAINS : List (String × List String) :=
  [("tokenized_securities",
    ["issuance", "custody", "settlement", "distribution", "compliance_audit"]),
   ("defi_infrastructure",
    ["protocol", "scaling_l1_l2", "interoperability", "wallet_access", "compliance"]),
   ("institutional_adoption",
    ["regulatory_framework", "sandbox", "pilot", "production", "scale"]),
   ("capital_markets",
    ["fund_formation", "deal_sourcing", "due_diligence", "portfolio_management", "exit"])]

/-- domain_model.py `POSITION_TAGS`. -/
def POSITION_TAGS : List (String × Finset String) :=
  [("tokenized_securities/issuance",
    {"market_structure", "regulatory_compliance", "asset_origination"}),
   ("tokenized_securities/custody",
    {"institutional_trust", "asset_safeguarding", "regulatory_compliance"}),
   ("tokenized_securities/settlement",
    {"settlement_finality", "cross_border_interop", "institutional_trust"}),
   ("tokenized_securities/distribution",
    {"market_structure", "cross_border_interop", "investor_access"}),
   ("tokenized_securities/compliance_audit",
    {"regulatory_compliance", "identity_access", "institutional_trust"}),
   ("defi_infrastructure/protocol",
    {"protocol_design", "settlement_finality", "throughput_scaling"}),
   ("defi_infrastructure/scaling_l1_l2",
    {"throughput_scaling", "settlement_finality", "institutional_trust"}),
   ("defi_infrastructure/interoperability",
    {"cross_border_interop", "settlement_finality", "protocol_design"}),
   ("defi_infrastructure/wallet_access",
    {"identity_access", "investor_access", "user_onboarding"}),
   ("defi_infrastructure/compliance",
    {"regulatory_compliance", "identity_access", "institutional_trust"}),
   ("institutional_adoption/regulatory_framework",
    {"regulatory_compliance", "market_structure", "institutional_trust"}),
   ("institutional_adoption/sandbox",
    {"regulatory_compliance", "market_validation", "institutional_trust"}),
   ("institutional_adoption/pilot",
    {"market_validation", "institutional_trust", "throughput_scaling"}),
   ("institutional_adoption/production",
    {"institutional_trust", "settlement_finality", "asset_safeguarding"}),
   ("institutional_adoption/scale",
    {"cross_border_interop", "throughput_scaling", "investor_access"}),
   ("capital_markets/fund_formation",
    {"market_structure", "regulatory_compliance", "investor_access"}),
   ("capital_markets/deal_sourcing",
    {"market_validation", "investor_access", "asset_origination"}),
   ("capital_markets/due_diligence",
    {"institutional_trust", "regulatory_compliance", "market_validation"}),
   ("capital_markets/portfolio_management",
    {"asset_safeguarding", "institutional_trust", "cross_border_interop"}),
   ("capital_markets/exit",
    {"market_structure", "investor_access", "cross_border_interop"})]

/-- domain_model.py `position_tags`: `POSITION_TAGS.get(f"{chain}/{position}", set())`. -/
def position_tags (chain position : String) : Finset String :=
  (POSITION_TAGS.lookup (chain ++ "/" ++ position)).getD ∅

/-- Tag union of one side's position list (the `tags.update` loops of
`shared_problem_domains` and `non_obvious_tag_score`). -/
def side_tags (positions : List (String × String)) : Finset String :=
  positions.foldl (fun acc cp => acc ∪ position_tags cp.1 cp.2) ∅

/-- domain_model.py `shared_problem_domains`. -/
def shared_problem_domains (positions_a positions_b : List (String × String)) :
    Finset String :=
  side_tags positions_a ∩ side_tags positions_b

/-- domain_model.py `non_obvious_tag_score`.  `sector_x is not None` is an
`Option.isSome` test (not truthiness) in the source. -/
def non_obvious_tag_score (positions_a positions_b : List (String × String))
    (sector_a sector_b : Option String) : ℚ × Finset String :=
  let shared := shared_problem_domains positions_a positions_b
  if shared = ∅ then (0, shared)
  else
    let tags_a := side_tags positions_a
    let tags_b := side_tags positions_b
    let union := tags_a ∪ tags_b
    let jaccard : ℚ := if union = ∅ then 0 else (shared.card : ℚ) / (union.card : ℚ)
    let base := jaccard
    let different_sectors :=
      sector_a.isSome ∧ sector_b.isSome ∧ sector_a ≠ sector_b
    let base := if different_sectors then py_min (base * (3/2)) 1 else base
    (base, shared)

/-- domain_model.py `value_chain_adjacency_score`.  The `_POSITION_INDEX`
dict is realised by `List.findIdx?` on the chain's position list (the
chains have no duplicate positions, so first-index equals the dict's
last-wins index). -/
def value_chain_adjacency_score (chain_a pos_a chain_b pos_b : String) : ℚ :=
  if chain_a ≠ chain_b then
    let tags_a := position_tags chain_a pos_a
    let tags_b := position_tags chain_b pos_b
    if tags_a = ∅ ∨ tags_b = ∅ then 3/10
    else
      let overlap := (tags_a ∩ tags_b).card
      if 2 ≤ overlap then 4/5
      else if overlap = 1 then 1/2
      else 1/5
  else
    match VALUE_CHAINS.lookup chain_a with
    | none => 3/10
    | some positions =>
      match positions.findIdx? (fun p => p == pos_a),
            positions.findIdx? (fun p => p == pos_b) with
      | some ia, some ib =>
        let distance := ((ia : ℤ) - (ib : ℤ)).natAbs
        if distance = 0 then 1/5
        else if distance = 1 then 1
        else if distance = 2 then 3/5
        else 3/10
      | _, _ => 3/10

/-- domain_model.py `best_chain_score`. -/
def best_chain_score (positions_a positions_b : List (String × String)) : ℚ :=
  if positions_a = [] ∨ positions_b = [] then 3/10
  else
    positions_a.foldl
      (fun best cpa =>
        positions_b.foldl
          (fun b cpb =>
            let s := value_chain_adjacency_score cpa.1 cpa.2 cpb.1 cpb.2
            if b < s then s else b)
          best)
      0

/-! ## Domain model, layer 2: role-transaction matrix -/

/-- domain_model.py `ROLE_TRANSACTION_MATRIX`. -/
def ROLE_TRANSACTION_MATRIX : List ((String × String) × Option String) :=
  [(("deploying_capital", "deploying_capital"), some "co_investment"),
   (("deploying_capital", "raising_capital"), some "investment"),
   (("deploying_capital", "exploring_partnerships"), none),
   (("deploying_capital", "seeking_technology"), some "investment"),
   (("deploying_capital", "regulatory_policy"), some "policy_dialogue"),
   (("deploying_capital", "media_content"), none),
   (("deploying_capital", "other"), none),
   (("raising_capital", "deploying_capital"), some "fundraising"),
   (("raising_capital", "raising_capital"), none),
   (("raising_capital", "exploring_partnerships"), some "gtm_partnership"),
   (("raising_capital", "seeking_technology"), some "tech_partnership"),
   (("raising_capital", "regulatory_policy"), some "sandbox_candidacy"),
   (("raising_capital", "media_content"), some "media_exposure"),
   (("raising_capital", "other"), none),
   (("exploring_partnerships", "deploying_capital"), none),
   (("exploring_partnerships", "raising_capital"), some "gtm_partnership"),
   (("exploring_partnerships", "exploring_partnerships"), some "partnership"),
   (("exploring_partnerships", "seeking_technology"), some "integration"),
   (("exploring_partnerships", "regulatory_policy"), some "sandbox_participation"),
   (("exploring_partnerships", "media_content"), none),
   (("exploring_partnerships", "other"), none),
   (("seeking_technology", "deploying_capital"), some "investment_pitch"),
   (("seeking_technology", "raising_capital"), some "tech_evaluation"),
   (("seeking_technology", "exploring_partnerships"), some "integration"),
   (("seeking_technology", "seeking_technology"), some "technical_collaboration"),
   (("seeking_technology", "regulatory_policy"), some "sandbox_evaluation"),
   (("seeking_technology", "media_content"), none),
   (("seeking_technology", "other"), none),
   (("regulatory_policy", "deploying_capital"), some "policy_dialogue"),
   (("regulatory_policy", "raising_capital"), some "sandbox_candidates"),
   (("regulatory_policy", "exploring_partnerships"), some "sandbox_participation"),
   (("regulatory_policy", "seeking_technology"), some "sandbox_evaluation"),
   (("regulatory_policy", "regulatory_policy"), some "policy_coordination"),
   (("regulatory_policy", "media_content"), some "content_collaboration"),
   (("regulatory_policy", "other"), none),
   (("media_content", "deploying_capital"), none),
   (("media_content", "raising_capital"), some "media_exposure"),
   (("media_content", "exploring_partnerships"), none),
   (("media_content", "seeking_technology"), none),
   (("media_content", "regulatory_policy"), some "content_collaboration"),
   (("media_content", "media_content"), some "content_collaboration"),
   (("media_content", "other"), none),
   (("other", "deploying_capital"), none),
   (("other", "raising_capital"), none),
   (("other", "exploring_partnerships"), none),
   (("other", "seeking_technology"), none),
   (("other", "regulatory_policy"), none),
   (("other", "media_content"), none),
   (("other", "other"), none)]

/-- domain_model.py `get_transaction_type`: `ROLE_TRANSACTION_MATRIX.get((role_a,
role_b))` — a missing key and a `None` value both give `none`. -/
def get_transaction_type (role_a role_b : String) : Option String :=
  (ROLE_TRANSACTION_MATRIX.lookup (role_a, role_b)).join

/-- domain_model.py `best_transaction_type`: nested loops over `roles_a`
then `roles_b`, returning at the first matrix hit. -/
def best_transaction_type (roles_a roles_b : List String) : Option String :=
  roles_a.findSome? (fun ra =>
    roles_b.findSome? (fun rb => (ROLE_TRANSACTION_MATRIX.lookup (ra, rb)).join))

/-! ## Domain model, layer 3: stage compatibility -/

/-- domain_model.py `STAGE_RULES`. -/
def STAGE_RULES : List (String × List ((String × String) × ℚ)) :=
  [("investment",
    [(("sovereign_fund", "series_b"), 9/10),
     (("sovereign_fund", "pre_product"), 1/10),
     (("growth_vc", "series_b"), 19/20),
     (("growth_vc", "seed"), 3/10),
     (("seed_fund", "seed"), 9/10),
     (("seed_fund", "series_b"), 2/5)]),
   ("fundraising",
    [(("series_b", "sovereign_fund"), 9/10),
     (("series_b", "growth_vc"), 19/20),
     (("seed", "seed_fund"), 9/10),
     (("seed", "growth_vc"), 3/10)]),
   ("co_investment",
    [(("sovereign_fund", "growth_vc"), 4/5),
     (("growth_vc", "sovereign_fund"), 4/5),
     (("growth_vc", "growth_vc"), 7/10)]),
   ("regulatory",
    [(("central_bank", "growth_startup"), 4/5),
     (("central_bank", "pre_product"), 2/5)]),
   ("partnership",
    [(("growth_startup", "growth_startup"), 7/10)])]

/-- domain_model.py `stage_compatibility`: `not stage_a or not stage_b` is
Python truthiness (absent or empty string). -/
def stage_compatibility (tx_type : String) (stage_a stage_b : Option String) : ℚ :=
  match stage_a, stage_b with
  | some a, some b =>
    if a = "" ∨ b = "" then 1/2
    else (((STAGE_RULES.lookup tx_type).getD []).lookup (a, b)).getD (1/2)
  | _, _ => 1/2

/-! ## Domain model: deterministic inference helpers -/

/-- domain_model.py `_TITLE_SENIORITY` (an insertion-ordered dict; the loop
in `infer_mandate_score` iterates it in exactly this order). -/
def TITLE_SENIORITY : List (String × ℚ) :=
  [("ceo", 19/20), ("cfo", 9/10), ("cto", 17/20), ("coo", 17/20), ("cio", 17/20),
   ("founder", 9/10), ("co-founder", 9/10), ("president", 9/10),
   ("managing director", 17/20), ("general partner", 9/10), ("partner", 4/5),
   ("director", 3/4), ("head", 3/4), ("vp", 7/10), ("vice president", 7/10),
   ("senior", 3/5), ("manager", 1/2), ("analyst", 3/10)]

/-- First keyword hit of an ordered keyword table on a (lowered) title. -/
def scan_seniority (table : List (String × ℚ)) (title_lower : String) : ℚ :=
  (table.findSome? (fun ks =>
    if str_contains title_lower ks.1 then some ks.2 else none)).getD (1/2)

/-- domain_model.py `infer_mandate_score`. -/
def infer_mandate_score (title : String) : ℚ :=
  scan_seniority TITLE_SENIORITY (py_lower title)

/-- domain_model.py `infer_maturity_score`.  The `key_facts` parameter is
always the (possibly empty) list field of a profile at every call site. -/
def infer_maturity_score (key_facts : List String) (stage : Option String) : ℚ :=
  let score : ℚ := 1/2
  let score :=
    match stage with
    | some st =>
      if st ≠ "" then
        let stage_l := py_lower st
        if str_contains stage_l "series_b" || str_contains stage_l "series_c" ||
           str_contains stage_l "growth" || str_contains stage_l "scale" then
          score + 1/5
        else if str_contains stage_l "series_a" || str_contains stage_l "seed" then
          score + 1/10
        else if str_contains stage_l "pre" then score - 1/10
        else score
      else score
    | none => score
  let score :=
    if key_facts ≠ [] then
      let joined := py_lower (String.intercalate " " key_facts)
      let signals := ["live", "customer", "deploy", "production", "bank", "partner"]
      let hits := (signals.filter (fun s => str_contains joined s)).length
      score + py_min ((hits : ℚ) * (1/20)) (1/5)
    else score
  py_min (py_max score 0) 1

/-! ## Dimension 2: transaction-readiness scorer
(src/matching/scoring/transaction_readiness.py) -/

/-- transaction_readiness.py per-transaction-type weight quadruple. -/
structure ReadinessWeights where
  mandate : ℚ
  fit : ℚ
  maturity : ℚ
  alignment : ℚ
deriving DecidableEq

/-- transaction_readiness.py `_WEIGHTS`. -/
def WEIGHTS : List (String × ReadinessWeights) :=
  [("investment", ⟨3/10, 3/10, 1/4, 3/20⟩),
   ("fundraising", ⟨3/10, 3/10, 1/4, 3/20⟩),
   ("co_investment", ⟨3/10, 3/10, 1/4, 3/20⟩),
   ("partnership", ⟨1/5, 1/4, 3/10, 1/4⟩),
   ("gtm_partnership", ⟨1/5, 1/4, 3/10, 1/4⟩),
   ("tech_partnership", ⟨1/5, 1/4, 3/10, 1/4⟩),
   ("integration", ⟨1/5, 1/4, 3/10, 1/4⟩),
   ("technical_collaboration", ⟨1/5, 1/4, 3/10, 1/4⟩),
   ("policy_dialogue", ⟨3/10, 1/5, 1/4, 1/4⟩),
   ("sandbox_candidacy", ⟨3/10, 1/5, 1/4, 1/4⟩),
   ("sandbox_candidates", ⟨3/10, 1/5, 1/4, 1/4⟩),
   ("sandbox_evaluation", ⟨3/10, 1/5, 1/4, 1/4⟩),
   ("sandbox_participation", ⟨3/10, 1/5, 1/4, 1/4⟩),
   ("policy_coordination", ⟨3/10, 1/5, 1/4, 1/4⟩),
   ("media_exposure", ⟨1/5, 1/4, 3/10, 1/4⟩),
   ("content_collaboration", ⟨1/5, 1/4, 3/10, 1/4⟩),
   ("investment_pitch", ⟨3/10, 3/10, 1/4, 3/20⟩),
   ("tech_evaluation", ⟨1/5, 1/4, 3/10, 1/4⟩)]

/-- transaction_readiness.py `_DEFAULT_WEIGHTS`. -/
def DEFAULT_WEIGHTS : ReadinessWeights := ⟨1/4, 1/4, 1/4, 1/4⟩

/-- transaction_readiness.py `_score_mandate`. -/
def score_mandate (a b : AttendeeProfile) : ℚ :=
  let a_authority := infer_mandate_score a.title
  let b_authority := infer_mandate_score b.title
  let a_urgency_bonus : ℚ :=
    match a.needs_vector with
    | some nv =>
      if nv.urgency = "active" then 1/10
      else if nv.urgency = "exploring" then 1/20
      else 0
    | none => 0
  py_min ((a_authority + b_authority) / 2 + a_urgency_bonus) 1

/-- transaction_readiness.py `_score_fit`. -/
def score_fit (a b : AttendeeProfile) : ℚ :=
  let fit : ℚ := 1/2
  let fit :=
    match a.needs_vector, b.provides_vector with
    | some nv, some pv =>
      let a_words := (py_split_ws (py_lower nv.target_counterparty_type)).toFinset
      let b_words := (py_split_ws (py_lower pv.primary_capability)).toFinset
      let overlap := (a_words ∩ b_words).card
      if 2 ≤ overlap then fit + 3/10
      else if 1 ≤ overlap then fit + 3/20
      else fit
    | _, _ => fit
  let fit :=
    if truthy a.sector && truthy b.sector && (a.sector == b.sector) then fit + 3/20
    else if truthy a.sector && truthy b.sector then fit + 1/20
    else fit
  py_min fit 1

/-- transaction_readiness.py `_score_alignment`. -/
def score_alignment (a b : AttendeeProfile) : ℚ :=
  let alignment : ℚ := 2/5
  let alignment :=
    if truthy a.sector && truthy b.sector && (a.sector == b.sector) then alignment + 1/5
    else alignment
  let alignment :=
    match a.provides_vector, b.provides_vector with
    | some pa, some pb =>
      let a_geo := pa.geographic_reach.toFinset
      let b_geo := pb.geographic_reach.toFinset
      let geo_overlap := a_geo ∩ b_geo
      if geo_overlap ≠ ∅ ∧ "global" ∉ geo_overlap then alignment + 1/5
      else if geo_overlap ≠ ∅ then alignment + 1/10
      else alignment
    | _, _ => alignment
  py_min alignment 1

/-- The `roles_a`/`roles_b` expression of transaction_readiness.py `score`:
`a.roles_at_event or ([a.role_at_event] if a.role_at_event else ["other"])`. -/
def tr_roles (p : AttendeeProfile) : List String :=
  match p.roles_at_event with
  | some (r :: rs) => r :: rs
  | _ =>
    match p.role_at_event with
    | some r => if r ≠ "" then [r] else ["other"]
    | none => ["other"]

/-- The weighted `rule_score` of transaction_readiness.py `score` for a
resolved transaction type. -/
def tr_rule_score (a b : AttendeeProfile) (tx_type : String) : ℚ :=
  let weights := (WEIGHTS.lookup tx_type).getD DEFAULT_WEIGHTS
  let mandate := score_mandate a b
  let fit := score_fit a b
  let maturity := (infer_maturity_score a.key_facts a.stage +
                   infer_maturity_score b.key_facts b.stage) / 2
  let alignment := score_alignment a b
  weights.mandate * mandate + weights.fit * fit +
    weights.maturity * maturity + weights.alignment * alignment

/-- transaction_readiness.py `score`. -/
def transaction_readiness_score (a b : AttendeeProfile) : ℚ × Option String :=
  match best_transaction_type (tr_roles a) (tr_roles b) with
  | none => (0, none)
  | some tx_type =>
    let rule_score := tr_rule_score a b tx_type
    let stage_score := stage_compatibility tx_type a.stage b.stage
    let blended := 7/10 * rule_score + 3/10 * stage_score
    (py_min (py_max blended 0) 1, some tx_type)

/-! ## Dimension 1: complementarity scorer
(src/matching/scoring/complementarity.py)

`sim needs_text provides_text` is the oracle composition of the external
collaborators `get_embedding` and `cosine_similarity` on a pair of texts. -/

/-- complementarity.py `_needs_provides_text`. -/
def needs_provides_text (profile : AttendeeProfile) (vector_type : String) : String :=
  match vector_type, profile.needs_vector, profile.provides_vector with
  | "needs", some nv, _ =>
    nv.primary_need ++ ". " ++ nv.need_description ++ " Looking for: " ++
      nv.target_counterparty_type ++ ". Constraints: " ++
      (if nv.constraints ≠ [] then String.intercalate ", " nv.constraints else "none") ++
      "."
  | "provides", _, some pv =>
    pv.primary_capability ++ ". " ++ pv.capability_description ++ " Evidence: " ++
      (if pv.evidence ≠ [] then String.intercalate ", " pv.evidence else "none") ++
      ". Reach: " ++
      (if pv.geographic_reach ≠ [] then String.intercalate ", " pv.geographic_reach
       else "global") ++
      "."
  | _, _, _ => profile.title ++ " at " ++ profile.company ++ ". " ++ profile.stated_goal

/-- complementarity.py `score`. -/
def complementarity_score (sim : String → String → ℚ) (s : Settings)
    (a b : AttendeeProfile) : ℚ :=
  let weights := s.complementarity_weights
  let a_needs_text := needs_provides_text a "needs"
  let b_provides_text := needs_provides_text b "provides"
  let a_provides_text := needs_provides_text a "provides"
  let b_needs_text := needs_provides_text b "needs"
  let ab_alignment := sim a_needs_text b_provides_text
  let ba_alignment := sim b_needs_text a_provides_text
  let avg_alignment := (ab_alignment + ba_alignment) / 2
  let positions_a := a.value_chain_positions.getD []
  let positions_b := b.value_chain_positions.getD []
  let chain_score := best_chain_score positions_a positions_b
  let bidir_raw :=
    if s.bidirectional_threshold < ab_alignment ∧
       s.bidirectional_threshold < ba_alignment then
      py_min (avg_alignment * s.bidirectional_boost) 1
    else avg_alignment
  let composite :=
    weights.needs_provides_alignment * avg_alignment +
      weights.value_chain_adjacency * chain_score +
      weights.bidirectional_multiplier * bidir_raw
  py_min (py_max composite 0) 1

/-! ## Dimension 3: non-obvious scorer (src/matching/scoring/non_obvious.py) -/

/-- non_obvious.py `problem_domain_text`. -/
def problem_domain_text (profile : AttendeeProfile) : String :=
  let parts :=
    (match profile.company_description with
     | some cd => if cd ≠ "" then [cd] else []
     | none => []) ++
    (match profile.needs_vector with
     | some nv => ["Key challenges: " ++ nv.primary_need ++ "."]
     | none => []) ++
    (match profile.provides_vector with
     | some pv => ["Building toward: " ++ pv.primary_capability ++ "."]
     | none => [])
  let parts :=
    if parts = [] then
      [profile.title ++ " at " ++ profile.company ++ ". " ++ profile.stated_goal]
    else parts
  String.intercalate " " parts

/-- non_obvious.py `score` (for an embedding path that does not fail; the
failure-aware variant is `non_obvious_score_exc` below). -/
def non_obvious_score (sim : String → String → ℚ) (a b : AttendeeProfile) : ℚ :=
  let positions_a := a.value_chain_positions.getD []
  let positions_b := b.value_chain_positions.getD []
  let tag_score := (non_obvious_tag_score positions_a positions_b a.sector b.sector).1
  let embed_sim := sim (problem_domain_text a) (problem_domain_text b)
  let combined := 4/5 * tag_score + 1/5 * embed_sim
  py_min (py_max combined 0) 1

/-! ## Composite ranker (src/matching/scoring/composite.py) -/

/-- composite.py `composite_score` (the global `settings` is a parameter). -/
def composite_score (s : Settings) (scores : DimensionScores) : ℚ :=
  let w := s.dimension_weights
  w.complementarity * scores.complementarity +
    w.transaction_readiness * scores.transaction_readiness +
    w.non_obvious * scores.non_obvious

/-! ## Failure-aware embedding model for the two embedding-based scorers

Python `get_embedding` can raise; `complementarity.score` calls it with no
handler while `non_obvious.score` wraps its calls in
`try ... except RuntimeError`.  `get_emb` returns `Except EmbError`, where
`runtime_error` records whether the raised exception is a `RuntimeError`
(the only class the non-obvious scorer catches). -/

/-- An exception raised while obtaining an embedding. -/
structure EmbError where
  runtime_error : Bool
deriving DecidableEq

/-- complementarity.py `score` with the embedding calls modelled as
fallible: the four `get_embedding` calls (in source order) have no
surrounding `try`, so the first failure propagates out of the scorer. -/
def complementarity_score_exc (get_emb : String → Except EmbError (List ℚ))
    (cos : List ℚ → List ℚ → ℚ) (s : Settings) (a b : AttendeeProfile) :
    Except EmbError ℚ :=
  let weights := s.complementarity_weights
  match get_emb (needs_provides_text a "needs") with
  | Except.error e => Except.error e
  | Except.ok a_needs_emb =>
  match get_emb (needs_provides_text b "provides") with
  | Except.error e => Except.error e
  | Except.ok b_provides_emb =>
  match get_emb (needs_provides_text a "provides") with
  | Except.error e => Except.error e
  | Except.ok a_provides_emb =>
  match get_emb (needs_provides_text b "needs") with
  | Except.error e => Except.error e
  | Except.ok b_needs_emb =>
    let ab_alignment := cos a_needs_emb b_provides_emb
    let ba_alignment := cos b_needs_emb a_provides_emb
    let avg_alignment := (ab_alignment + ba_alignment) / 2
    let chain_score := best_chain_score (a.value_chain_positions.getD [])
      (b.value_chain_positions.getD [])
    let bidir_raw :=
      if s.bidirectional_threshold < ab_alignment ∧
         s.bidirectional_threshold < ba_alignment then
        py_min (avg_alignment * s.bidirectional_boost) 1
      else avg_alignment
    let composite :=
      weights.needs_provides_alignment * avg_alignment +
        weights.value_chain_adjacency * chain_score +
        weights.bidirectional_multiplier * bidir_raw
    Except.ok (py_min (py_max composite 0) 1)

/-- non_obvious.py `score` with fallible embeddings: the `try` block covers
the two `get_embedding` calls and the cosine; `except RuntimeError` degrades
`embed_sim` to 0, any other exception class propagates. -/
def non_obvious_score_exc (get_emb : String → Except EmbError (List ℚ))
    (cos : List ℚ → List ℚ → ℚ) (a b : AttendeeProfile) : Except EmbError ℚ :=
  let positions_a := a.value_chain_positions.getD []
  let positions_b := b.value_chain_positions.getD []
  let tag_score := (non_obvious_tag_score positions_a positions_b a.sector b.sector).1
  let tried : Except EmbError ℚ :=
    match get_emb (problem_domain_text a) with
    | Except.error e => Except.error e
    | Except.ok emb_a =>
      match get_emb (problem_domain_text b) with
      | Except.error e => Except.error e
      | Except.ok emb_b => Except.ok (cos emb_a emb_b)
  let caught : Except EmbError ℚ :=
    match tried with
    | Except.error e => if e.runtime_error then Except.ok 0 else Except.error e
    | Except.ok v => Except.ok v
  match caught with
  | Except.error e => Except.error e
  | Except.ok embed_sim =>
    Except.ok (py_min (py_max (4/5 * tag_score + 1/5 * embed_sim) 0) 1)

/-! ## Pairwise orchestrator (src/matching/engine.py)

The LLM collaborators are oracles: `extract` is `extract_all` and `explain`
is `generate_explanation` (taking the scored pair, the attendee, and the
`profile_map` lookup of the other attendee).  The embedding pre-encoding
pass (`embeddings.fit`) only populates a cache and is absorbed by the `sim`
oracle. -/

/-- Python-dict insertion on an association list: an existing key is
overwritten in place (keeping its position), a new key is appended. -/
def dict_insert {α β : Type} [DecidableEq α] (k : α) (v : β) :
    List (α × β) → List (α × β)
  | [] => [(k, v)]
  | (k', v') :: rest =>
    if k' = k then (k, v) :: rest else (k', v') :: dict_insert k v rest

/-- engine.py `_get_roles`. -/
def get_roles (p : AttendeeProfile) : List String :=
  match p.roles_at_event with
  | some (r :: rs) => r :: rs
  | _ =>
    match p.role_at_event with
    | some r => if r ≠ "" then [r] else ["other"]
    | none => ["other"]

/-- engine.py `run`, step 3: the `scoreable_pairs` list of ordered pairs
with distinct ids, each with its pre-resolved transaction type. -/
def scoreable_pairs (enriched : List AttendeeProfile) :
    List (AttendeeProfile × AttendeeProfile × Option String) :=
  enriched.flatMap (fun a =>
    (enriched.filter (fun b => !(a.id == b.id))).map (fun b =>
      (a, b, best_transaction_type (get_roles a) (get_roles b))))

/-- The `ScoredPair` recorded for one ordered pair in engine.py `run`
(`tr_score` is 0 with no sub-computation when the transaction type is
`none`). -/
def score_pair (sim : String → String → ℚ) (s : Settings)
    (a b : AttendeeProfile) (tx_type : Option String) : ScoredPair :=
  let comp := complementarity_score sim s a b
  let no_score := non_obvious_score sim a b
  let tr_score :=
    match tx_type with
    | none => 0
    | some _ => (transaction_readiness_score a b).1
  let dim_scores : DimensionScores :=
    { complementarity := comp, transaction_readiness := tr_score,
      non_obvious := no_score }
  { attendee_a_id := a.id, attendee_b_id := b.id, scores := dim_scores,
    composite := composite_score s dim_scores, transaction_type := tx_type }

/-- engine.py `run`, step 3: the `pair_scores` dict keyed by `(a.id, b.id)`. -/
def pair_scores (sim : String → String → ℚ) (s : Settings)
    (enriched : List AttendeeProfile) : List ((String × String) × ScoredPair) :=
  (scoreable_pairs enriched).foldl
    (fun d abt => dict_insert (abt.1.id, abt.2.1.id)
      (score_pair sim s abt.1 abt.2.1 abt.2.2) d)
    []

/-- engine.py `run`, step 4: the `candidates` comprehension for one
attendee (dict iteration order is the association-list order). -/
def candidates_for (d : List ((String × String) × ScoredPair)) (aid : String) :
    List ScoredPair :=
  (d.filter (fun kv => kv.1.1 == aid)).map (fun kv => kv.2)

/-- Stable insertion step for the descending sort: `x` moves past exactly
the elements with strictly larger composite. -/
def ordered_insert_desc (x : ScoredPair) : List ScoredPair → List ScoredPair
  | [] => [x]
  | y :: ys =>
    if x.composite < y.composite then y :: ordered_insert_desc x ys
    else x :: y :: ys

/-- Python `candidates.sort(key=lambda sp: sp.composite, reverse=True)`:
a stable descending sort (ties keep list order). -/
def sort_by_composite_desc : List ScoredPair → List ScoredPair
  | [] => []
  | x :: xs => ordered_insert_desc x (sort_by_composite_desc xs)

/-- engine.py `run`: `profile_map = {p.id: p for p in enriched}`. -/
def profile_map (enriched : List AttendeeProfile) :
    List (String × AttendeeProfile) :=
  enriched.foldl (fun d p => dict_insert p.id p d) []

/-- engine.py `run`, step 4: one attendee's `MatchBriefing`. -/
def briefing_for (explain : ScoredPair → AttendeeProfile →
      Option AttendeeProfile → String × DimensionExplanations)
    (d : List ((String × String) × ScoredPair))
    (pm : List (String × AttendeeProfile)) (k : Nat) (skip_explanations : Bool)
    (attendee : AttendeeProfile) : MatchBriefing :=
  let candidates := candidates_for d attendee.id
  let sorted := sort_by_composite_desc candidates
  let top := sorted.take k
  let matches_list := top.map (fun sp =>
    if skip_explanations then
      ({ pair := sp, explanation := "(explanations skipped)",
         dimension_explanations := {} } : MatchResult)
    else
      let e := explain sp attendee (pm.lookup sp.attendee_b_id)
      { pair := sp, explanation := e.1, dimension_explanations := e.2 })
  { attendee_id := attendee.id, attendee_name := attendee.name,
    matches_list := matches_list }

/-- engine.py: `k = top_k or settings.top_k` (Python truthiness: both
`None` and `0` fall back to the configured default). -/
def resolve_top_k (s : Settings) (top_k : Option Nat) : Nat :=
  match top_k with
  | some n => if n ≠ 0 then n else s.top_k
  | none => s.top_k

/-- engine.py `run`: extraction, all-pairs scoring, ranking per attendee. -/
def run (sim : String → String → ℚ) (s : Settings)
    (extract : AttendeeProfile → AttendeeProfile)
    (explain : ScoredPair → AttendeeProfile → Option AttendeeProfile →
      String × DimensionExplanations)
    (profiles : List AttendeeProfile) (top_k : Option Nat)
    (skip_explanations : Bool) : List MatchBriefing :=
  let k := resolve_top_k s top_k
  let enriched := profiles.map extract
  let d := pair_scores sim s enriched
  let pm := profile_map enriched
  enriched.map (briefing_for explain d pm k skip_explanations)

/-! ## Auxiliary definitions for the claim statements and witnesses -/

/-- Spec reading of `best_transaction_type`, inner loop: iterate `roles_b`
in the given order and return the first non-none matrix lookup. -/
def first_match_inner (ra : String) : List String → Option String
  | [] => none
  | rb :: rbs =>
    match get_transaction_type ra rb with
    | some tx => some tx
    | none => first_match_inner ra rbs

/-- Spec reading of `best_transaction_type`, outer loop: iterate `roles_a`
in the given order, returning the first hit of the inner loop. -/
def first_match_spec : List String → List String → Option String
  | [], _ => none
  | ra :: ras, rbs =>
    match first_match_inner ra rbs with
    | some tx => some tx
    | none => first_match_spec ras rbs

/-- The `_TITLE_SENIORITY` entries before "vice president". -/
def SENIORITY_PRE : List (String × ℚ) :=
  [("ceo", 19/20), ("cfo", 9/10), ("cto", 17/20), ("coo", 17/20), ("cio", 17/20),
   ("founder", 9/10), ("co-founder", 9/10), ("president", 9/10),
   ("managing director", 17/20), ("general partner", 9/10), ("partner", 4/5),
   ("director", 3/4), ("head", 3/4), ("vp", 7/10)]

/-- The `_TITLE_SENIORITY` entries after "vice president". -/
def SENIORITY_POST : List (String × ℚ) :=
  [("senior", 3/5), ("manager", 1/2), ("analyst", 3/10)]

/-- The seniority table with the ("vice president", 0.7) entry removed. -/
def TITLE_SENIORITY_NO_VP : List (String × ℚ) := SENIORITY_PRE ++ SENIORITY_POST

/-- Witness profile: a minimal attendee whose only role is "other". -/
def wit_other_a : AttendeeProfile :=
  { id := "a", name := "A", title := "x", company := "c",
    roles_at_event := some ["other"] }

/-- Witness profile: a second minimal attendee whose only role is "other". -/
def wit_other_b : AttendeeProfile :=
  { id := "b", name := "B", title := "y", company := "d",
    roles_at_event := some ["other"] }

/-- Witness profile with a provides-vector whose geographic reach is
["global", "europe"]. -/
def wit_geo_a : AttendeeProfile :=
  { id := "ga", name := "GA", title := "t", company := "c",
    provides_vector := some
      { primary_capability := "cap", geographic_reach := ["global", "europe"] } }

/-- Second witness profile with geographic reach ["global", "europe"]. -/
def wit_geo_b : AttendeeProfile :=
  { id := "gb", name := "GB", title := "u", company := "d",
    provides_vector := some
      { primary_capability := "dap", geographic_reach := ["global", "europe"] } }

/-- Witness embedding oracle that always raises a RuntimeError. -/
def fail_emb : String → Except EmbError (List ℚ) :=
  fun _ => Except.error { runtime_error := true }

/-- Witness cosine oracle. -/
def zero_cos : List ℚ → List ℚ → ℚ := fun _ _ => 0

/-- Witness text-pair similarity oracle. -/
def zero_sim : String → String → ℚ := fun _ _ => 0

/-- Witness explanation oracle. -/
def wit_explain : ScoredPair → AttendeeProfile → Option AttendeeProfile →
    String × DimensionExplanations :=
  fun _ _ _ => ("", {})

/-! ## General lemmas -/

theorem clamp01_nonneg (x : ℚ) : 0 ≤ py_min (py_max x 0) 1 := by
  unfold py_min py_max
  split_ifs <;> linarith

theorem clamp01_le_one (x : ℚ) : py_min (py_max x 0) 1 ≤ 1 := by
  unfold py_min py_max
  split_ifs <;> linarith

/-! ## C1 — dimension scorers and composite stay in the unit interval -/

/-- C1: for every pair of profiles (and any embedding-similarity oracle and
configuration), each dimension scorer returns a value in [0, 1], and under
the default configuration weights the composite of the three scorer outputs
is also in [0, 1].  In the rational model of float arithmetic no NaN
exists, so the range statement is the whole invariant. -/
theorem c1_scores_in_unit_interval (sim : String → String → ℚ) (s : Settings)
    (a b : AttendeeProfile) :
    (0 ≤ complementarity_score sim s a b ∧ complementarity_score sim s a b ≤ 1) ∧
    (0 ≤ (transaction_readiness_score a b).1 ∧
      (transaction_readiness_score a b).1 ≤ 1) ∧
    (0 ≤ non_obvious_score sim a b ∧ non_obvious_score sim a b ≤ 1) ∧
    (0 ≤ composite_score defaultSettings
        { complementarity := complementarity_score sim defaultSettings a b,
          transaction_readiness := (transaction_readiness_score a b).1,
          non_obvious := non_obvious_score sim a b } ∧
      composite_score defaultSettings
        { complementarity := complementarity_score sim defaultSettings a b,
          transaction_readiness := (transaction_readiness_score a b).1,
          non_obvious := non_obvious_score sim a b } ≤ 1) := by
  have hcomp : ∀ (s' : Settings), 0 ≤ complementarity_score sim s' a b ∧
      complementarity_score sim s' a b ≤ 1 := by
    intro s'
    unfold complementarity_score
    exact ⟨clamp01_nonneg _, clamp01_le_one _⟩
  have htr : 0 ≤ (transaction_readiness_score a b).1 ∧
      (transaction_readiness_score a b).1 ≤ 1 := by
    unfold transaction_readiness_score
    cases best_transaction_type (tr_roles a) (tr_roles b) with
    | none => exact ⟨le_refl 0, by norm_num⟩
    | some tx => exact ⟨clamp01_nonneg _, clamp01_le_one _⟩
  have hno : 0 ≤ non_obvious_score sim a b ∧ non_obvious_score sim a b ≤ 1 := by
    unfold non_obvious_score
    exact ⟨clamp01_nonneg _, clamp01_le_one _⟩
  refine ⟨hcomp s, htr, hno, ?_⟩
  obtain ⟨hc0, hc1⟩ := hcomp defaultSettings
  obtain ⟨ht0, ht1⟩ := htr
  obtain ⟨hn0, hn1⟩ := hno
  have heq : composite_score defaultSettings
      { complementarity := complementarity_score sim defaultSettings a b,
        transaction_readiness := (transaction_readiness_score a b).1,
        non_obvious := non_obvious_score sim a b } =
      1/2 * complementarity_score sim defaultSettings a b +
        3/10 * (transaction_readiness_score a b).1 +
        1/5 * non_obvious_score sim a b := rfl
  rw [heq]
  constructor <;> linarith

/-! ## C3 — first-match semantics of `best_transaction_type` -/

theorem findSome?_eq_first_match_inner (ra : String) (rbs : List String) :
    rbs.findSome? (fun rb => (ROLE_TRANSACTION_MATRIX.lookup (ra, rb)).join) =
      first_match_inner ra rbs := by
  induction rbs with
  | nil => rfl
  | cons rb rbs ih =>
    rw [List.findSome?_cons]
    unfold first_match_inner get_transaction_type
    cases (ROLE_TRANSACTION_MATRIX.lookup (ra, rb)).join with
    | none => exact ih
    | some tx => rfl

/-- C3: `best_transaction_type` implements exactly the first-match
iteration the spec describes (outer loop over `roles_a`, inner over
`roles_b`, first non-none lookup wins), it returns none precisely when no
role combination maps to a transaction type, and the two literal examples
of the spec hold. -/
theorem c3_best_transaction_type_first_match (roles_a roles_b : List String) :
    best_transaction_type roles_a roles_b = first_match_spec roles_a roles_b ∧
    (best_transaction_type roles_a roles_b = none ↔
      ∀ ra ∈ roles_a, ∀ rb ∈ roles_b, get_transaction_type ra rb = none) ∧
    best_transaction_type ["other"] ["other"] = none ∧
    best_transaction_type ["deploying_capital"] ["raising_capital"] =
      some "investment" := by
  refine ⟨?_, ?_, by decide, by decide⟩
  · induction roles_a with
    | nil => rfl
    | cons ra ras ih =>
      unfold best_transaction_type at ih ⊢
      rw [List.findSome?_cons, findSome?_eq_first_match_inner]
      unfold first_match_spec
      cases first_match_inner ra roles_b with
      | none => exact ih
      | some tx => rfl
  · unfold best_transaction_type get_transaction_type
    simp [List.findSome?_eq_none_iff]

/-! ## C4 — case values of `value_chain_adjacency_score` -/

/-- C4: the full case analysis of `value_chain_adjacency_score`.  Same
chain with both positions known: 0.2 / 1.0 / 0.6 / 0.3 for index distance
0 / 1 / 2 / ≥3; 0.3 when the chain or either position is unknown.
Different chains: 0.3 when either tag set is empty, else 0.8 / 0.5 / 0.2
for tag overlap ≥2 / =1 / =0. -/
theorem c4_value_chain_adjacency_cases :
    (∀ chain pos_a pos_b positions ia ib,
      VALUE_CHAINS.lookup chain = some positions →
      positions.findIdx? (fun p => p == pos_a) = some ia →
      positions.findIdx? (fun p => p == pos_b) = some ib →
      value_chain_adjacency_score chain pos_a chain pos_b =
        (if ((ia : ℤ) - (ib : ℤ)).natAbs = 0 then 1/5
         else if ((ia : ℤ) - (ib : ℤ)).natAbs = 1 then 1
         else if ((ia : ℤ) - (ib : ℤ)).natAbs = 2 then 3/5
         else 3/10)) ∧
    (∀ chain pos_a pos_b,
      VALUE_CHAINS.lookup chain = none →
      value_chain_adjacency_score chain pos_a chain pos_b = 3/10) ∧
    (∀ chain pos_a pos_b positions,
      VALUE_CHAINS.lookup chain = some positions →
      (positions.findIdx? (fun p => p == pos_a) = none ∨
       positions.findIdx? (fun p => p == pos_b) = none) →
      value_chain_adjacency_score chain pos_a chain pos_b = 3/10) ∧
    (∀ chain_a pos_a chain_b pos_b,
      chain_a ≠ chain_b →
      (position_tags chain_a pos_a = ∅ ∨ position_tags chain_b pos_b = ∅) →
      value_chain_adjacency_score chain_a pos_a chain_b pos_b = 3/10) ∧
    (∀ chain_a pos_a chain_b pos_b,
      chain_a ≠ chain_b →
      position_tags chain_a pos_a ≠ ∅ → position_tags chain_b pos_b ≠ ∅ →
      value_chain_adjacency_score chain_a pos_a chain_b pos_b =
        (if 2 ≤ (position_tags chain_a pos_a ∩ position_tags chain_b pos_b).card
         then 4/5
         else if (position_tags chain_a pos_a ∩ position_tags chain_b pos_b).card = 1
         then 1/2
         else 1/5)) := by
  refine ⟨?_, ?_, ?_, ?_, ?_⟩
  · intro chain pos_a pos_b positions ia ib hl ha hb
    unfold value_chain_adjacency_score
    simp only [ne_eq, not_true_eq_false, if_false, hl, ha, hb]
  · intro chain pos_a pos_b hl
    unfold value_chain_adjacency_score
    simp only [ne_eq, not_true_eq_false, if_false, hl]
  · intro chain pos_a pos_b positions hl hnone
    unfold value_chain_adjacency_score
    rcases hnone with ha | hb
    · simp only [ne_eq, not_true_eq_false, if_false, hl, ha]
    · cases hfa : positions.findIdx? (fun p => p == pos_a) <;>
        simp only [ne_eq, not_true_eq_false, if_false, hl, hfa, hb]
  · intro chain_a pos_a chain_b pos_b hne hempty
    unfold value_chain_adjacency_score
    rw [if_pos hne, if_pos hempty]
  · intro chain_a pos_a chain_b pos_b hne ha hb
    unfold value_chain_adjacency_score
    rw [if_pos hne, if_neg (by simp [ha, hb])]

/-- C4 witness: adjacent positions of the same chain score 1.0, obtained
from the same-chain case of the theorem at a concrete input. -/
theorem c4_value_chain_adjacency_cases_witness :
    value_chain_adjacency_score "tokenized_securities" "issuance"
      "tokenized_securities" "custody" = 1 := by
  have h := (c4_value_chain_adjacency_cases).1 "tokenized_securities"
    "issuance" "custody"
    ["issuance", "custody", "settlement", "distribution", "compliance_audit"]
    0 1 (by decide) (by decide) (by decide)
  rw [h]
  norm_num

/-! ## C5 — symmetry of `value_chain_adjacency_score` -/

/-- C5: `value_chain_adjacency_score` is symmetric under swapping the two
(chain, position) arguments. -/
theorem c5_value_chain_adjacency_symm (c1 p1 c2 p2 : String) :
    value_chain_adjacency_score c1 p1 c2 p2 =
      value_chain_adjacency_score c2 p2 c1 p1 := by
  simp only [value_chain_adjacency_score]
  by_cases h : c1 = c2
  · subst h
    simp only [ne_eq, not_true_eq_false, if_false]
    cases hl : VALUE_CHAINS.lookup c1 with
    | none => simp only [hl]
    | some positions =>
      cases ha : positions.findIdx? (fun p => p == p1) with
      | none =>
        cases hb : positions.findIdx? (fun p => p == p2) <;>
          simp only [hl, ha, hb]
      | some ia =>
        cases hb : positions.findIdx? (fun p => p == p2) with
        | none => simp only [hl, ha, hb]
        | some ib =>
          have habs : ((ia : ℤ) - (ib : ℤ)).natAbs = ((ib : ℤ) - (ia : ℤ)).natAbs := by
            omega
          simp only [hl, ha, hb, habs]
  · have h' : ¬ c2 = c1 := fun hh => h hh.symm
    simp only [ne_eq, h, h', not_false_eq_true, if_true]
    by_cases ha : position_tags c1 p1 = ∅ <;> by_cases hb : position_tags c2 p2 = ∅
    · simp [ha, hb]
    · simp [ha, hb]
    · simp [ha, hb]
    · rw [if_neg (show ¬(position_tags c1 p1 = ∅ ∨ position_tags c2 p2 = ∅) from
          by simp [ha, hb]),
        if_neg (show ¬(position_tags c2 p2 = ∅ ∨ position_tags c1 p1 = ∅) from
          by simp [ha, hb]),
        Finset.inter_comm]

/-! ## C7 — neutral defaults and table values of `stage_compatibility` -/

/-- C7: `stage_compatibility` returns 0.5 whenever either stage is absent
or empty, or the transaction type has no table, or the specific pair is
missing from the table; otherwise it returns the table value, e.g. 0.9 for
("investment", "sovereign_fund", "series_b"). -/
theorem c7_stage_compatibility_cases :
    (∀ tx sb, stage_compatibility tx none sb = 1/2) ∧
    (∀ tx sa, stage_compatibility tx sa none = 1/2) ∧
    (∀ tx sb, stage_compatibility tx (some "") sb = 1/2) ∧
    (∀ tx sa, stage_compatibility tx sa (some "") = 1/2) ∧
    (∀ tx a b, a ≠ "" → b ≠ "" →
      ((STAGE_RULES.lookup tx).getD []).lookup (a, b) = none →
      stage_compatibility tx (some a) (some b) = 1/2) ∧
    (∀ tx a b v, a ≠ "" → b ≠ "" →
      ((STAGE_RULES.lookup tx).getD []).lookup (a, b) = some v →
      stage_compatibility tx (some a) (some b) = v) ∧
    stage_compatibility "investment" (some "sovereign_fund") (some "series_b") =
      9/10 := by
  refine ⟨?_, ?_, ?_, ?_, ?_, ?_, rfl⟩
  · intro tx sb; rfl
  · intro tx sa; cases sa <;> rfl
  · intro tx sb
    cases sb with
    | none => rfl
    | some b => simp [stage_compatibility]
  · intro tx sa
    cases sa with
    | none => rfl
    | some a => simp [stage_compatibility]
  · intro tx a b ha hb hl
    simp only [stage_compatibility]
    rw [if_neg (by simp [ha, hb]), hl]
    rfl
  · intro tx a b v ha hb hl
    simp only [stage_compatibility]
    rw [if_neg (by simp [ha, hb]), hl]
    rfl

/-- C7 witness: a concrete table value obtained through the table-value
case of the theorem. -/
theorem c7_stage_compatibility_cases_witness :
    stage_compatibility "investment" (some "sovereign_fund") (some "pre_product") =
      1/10 := by
  exact (c7_stage_compatibility_cases).2.2.2.2.2.1 "investment"
    "sovereign_fund" "pre_product" (1/10) (by decide) (by decide) rfl

/-- C3 witness: the two literal examples, read off the theorem at a
concrete instantiation. -/
theorem c3_best_transaction_type_first_match_witness :
    best_transaction_type ["other"] ["other"] = none ∧
    best_transaction_type ["deploying_capital"] ["raising_capital"] =
      some "investment" :=
  (c3_best_transaction_type_first_match [] []).2.2

/-! ## C6 — structure of the transaction-readiness score -/

/-- C6: the transaction-readiness scorer short-circuits to (0, none) when
no transaction type resolves from the two profiles' roles, and otherwise
returns the clamp of 0.7 × rule_score + 0.3 × stage_compatibility together
with the resolved type. -/
theorem c6_transaction_readiness_structure (a b : AttendeeProfile) :
    (best_transaction_type (tr_roles a) (tr_roles b) = none →
      transaction_readiness_score a b = (0, none)) ∧
    (∀ tx, best_transaction_type (tr_roles a) (tr_roles b) = some tx →
      transaction_readiness_score a b =
        (py_min (py_max (7/10 * tr_rule_score a b tx +
            3/10 * stage_compatibility tx a.stage b.stage) 0) 1, some tx)) := by
  constructor
  · intro h
    simp only [transaction_readiness_score, h]
  · intro tx h
    simp only [transaction_readiness_score, h]

/-- C6 witness: two profiles whose only roles are "other" resolve no
transaction type, and the theorem's short-circuit case yields (0, none). -/
theorem c6_transaction_readiness_structure_witness :
    transaction_readiness_score wit_other_a wit_other_b = (0, none) :=
  (c6_transaction_readiness_structure wit_other_a wit_other_b).1 (by decide)

/-! ## C8 — alignment sub-score and the "global" geographic overlap -/

/-- C8 counterexample: both witness profiles reach ["global", "europe"], so
their geographic overlap is {"global", "europe"} — not solely "global" —
yet the alignment score is 0.4 + 0.1 = 0.5, not the 0.4 + 0.2 = 0.6 the
claim predicts: the code gives the reduced credit whenever "global" is a
member of the overlap at all. -/
theorem c8_alignment_global_counterexample :
    (wit_geo_a.provides_vector.map ProvidesVector.geographic_reach =
      some ["global", "europe"]) ∧
    (wit_geo_b.provides_vector.map ProvidesVector.geographic_reach =
      some ["global", "europe"]) ∧
    score_alignment wit_geo_a wit_geo_b = 1/2 ∧
    score_alignment wit_geo_a wit_geo_b ≠ 3/5 := by
  have h : score_alignment wit_geo_a wit_geo_b = 1/2 := by
    have hov : (["global", "europe"].toFinset ∩ ["global", "europe"].toFinset ≠
        (∅ : Finset String)) ∧
        "global" ∈ (["global", "europe"].toFinset ∩ ["global", "europe"].toFinset) := by
      decide
    simp only [score_alignment, wit_geo_a, wit_geo_b, truthy]
    norm_num [py_min, hov.1, hov.2]
  refine ⟨rfl, rfl, h, ?_⟩
  rw [h]
  norm_num

/-- C8 amended: with both provides-vectors present the alignment sub-score
is min(0.4 + sector bonus + geo bonus, 1), where the geographic bonus is
0.2 only when the overlap is non-empty and does not contain "global" at
all; an overlap containing "global" — alone or together with other
regions — receives only 0.1; an empty overlap receives nothing. -/
theorem c8_alignment_amended (a b : AttendeeProfile) (pa pb : ProvidesVector)
    (ha : a.provides_vector = some pa) (hb : b.provides_vector = some pb) :
    score_alignment a b =
      py_min ((2/5 : ℚ) +
        (if truthy a.sector && truthy b.sector && (a.sector == b.sector)
         then 1/5 else 0) +
        (if pa.geographic_reach.toFinset ∩ pb.geographic_reach.toFinset ≠ ∅ ∧
            "global" ∉ pa.geographic_reach.toFinset ∩ pb.geographic_reach.toFinset
         then 1/5
         else if pa.geographic_reach.toFinset ∩ pb.geographic_reach.toFinset ≠ ∅
         then 1/10 else 0)) 1 := by
  simp only [score_alignment, ha, hb]
  split_ifs <;> ring_nf

/-- C8 amended witness: evaluated at the ["global", "europe"] overlap
profiles, the amended formula gives the 0.1 geographic credit. -/
theorem c8_alignment_amended_witness :
    score_alignment wit_geo_a wit_geo_b = 1/2 := by
  have h := c8_alignment_amended wit_geo_a wit_geo_b
    { primary_capability := "cap", geographic_reach := ["global", "europe"] }
    { primary_capability := "dap", geographic_reach := ["global", "europe"] }
    rfl rfl
  rw [h]
  have hov : (["global", "europe"].toFinset ∩ ["global", "europe"].toFinset ≠
      (∅ : Finset String)) ∧
      "global" ∈ (["global", "europe"].toFinset ∩ ["global", "europe"].toFinset) := by
    decide
  norm_num [py_min, truthy, wit_geo_a, wit_geo_b, hov.1, hov.2]

/-! ## C9 — embedding failures in the two embedding-based scorers -/

/-- C9 counterexample: with an embedding oracle that raises a RuntimeError
for every text, the complementarity scorer — which has no handler around
its four `get_embedding` calls — propagates the failure out instead of
degrading the signal to 0, contradicting the claim that no embedding
failure escapes the complementarity scorer. -/
theorem c9_embedding_failure_counterexample :
    complementarity_score_exc fail_emb zero_cos defaultSettings
      wit_other_a wit_other_b = Except.error { runtime_error := true } := rfl

/-- C9 amended: only the non-obvious scorer catches embedding failures,
and only `RuntimeError`: a RuntimeError from either of its two embedding
calls degrades the embedding signal to 0 and the scorer still returns a
score, while a non-RuntimeError failure propagates even there; the
complementarity scorer catches nothing, so a failure of any of its four
embedding calls (in call order) propagates out and aborts the pair. -/
theorem c9_embedding_failure_handling
    (get_emb : String → Except EmbError (List ℚ))
    (cos : List ℚ → List ℚ → ℚ) (a b : AttendeeProfile) :
    (∀ e : EmbError, e.runtime_error = true →
      (get_emb (problem_domain_text a) = Except.error e ∨
        (∃ v, get_emb (problem_domain_text a) = Except.ok v ∧
          get_emb (problem_domain_text b) = Except.error e)) →
      non_obvious_score_exc get_emb cos a b =
        Except.ok (py_min (py_max (4/5 *
          (non_obvious_tag_score (a.value_chain_positions.getD [])
            (b.value_chain_positions.getD []) a.sector b.sector).1 +
          1/5 * 0) 0) 1)) ∧
    (∀ e : EmbError, e.runtime_error = false →
      get_emb (problem_domain_text a) = Except.error e →
      non_obvious_score_exc get_emb cos a b = Except.error e) ∧
    (∀ e : EmbError,
      get_emb (needs_provides_text a "needs") = Except.error e →
      complementarity_score_exc get_emb cos defaultSettings a b =
        Except.error e) ∧
    (∀ e : EmbError, ∀ v1,
      get_emb (needs_provides_text a "needs") = Except.ok v1 →
      get_emb (needs_provides_text b "provides") = Except.error e →
      complementarity_score_exc get_emb cos defaultSettings a b =
        Except.error e) ∧
    (∀ e : EmbError, ∀ v1 v2,
      get_emb (needs_provides_text a "needs") = Except.ok v1 →
      get_emb (needs_provides_text b "provides") = Except.ok v2 →
      get_emb (needs_provides_text a "provides") = Except.error e →
      complementarity_score_exc get_emb cos defaultSettings a b =
        Except.error e) ∧
    (∀ e : EmbError, ∀ v1 v2 v3,
      get_emb (needs_provides_text a "needs") = Except.ok v1 →
      get_emb (needs_provides_text b "provides") = Except.ok v2 →
      get_emb (needs_provides_text a "provides") = Except.ok v3 →
      get_emb (needs_provides_text b "needs") = Except.error e →
      complementarity_score_exc get_emb cos defaultSettings a b =
        Except.error e) := by
  refine ⟨?_, ?_, ?_, ?_, ?_, ?_⟩
  · intro e he hcase
    rcases hcase with h1 | ⟨v, h1, h2⟩
    · simp only [non_obvious_score_exc, h1, he, if_true]
    · simp only [non_obvious_score_exc, h1, h2, he, if_true]
  · intro e he h1
    simp only [non_obvious_score_exc, h1, he, Bool.false_eq_true, if_false]
  · intro e h1
    simp only [complementarity_score_exc, h1]
  · intro e v1 h1 h2
    simp only [complementarity_score_exc, h1, h2]
  · intro e v1 v2 h1 h2 h3
    simp only [complementarity_score_exc, h1, h2, h3]
  · intro e v1 v2 v3 h1 h2 h3 h4
    simp only [complementarity_score_exc, h1, h2, h3, h4]

/-- C9 amended witness: with positions-free profiles and an
always-RuntimeError embedding oracle, the non-obvious scorer still returns
a score (here 0). -/
theorem c9_embedding_failure_handling_witness :
    non_obvious_score_exc fail_emb zero_cos wit_other_a wit_other_b =
      Except.ok 0 := by
  have h := (c9_embedding_failure_handling fail_emb zero_cos
    wit_other_a wit_other_b).1 { runtime_error := true } rfl (Or.inl rfl)
  rw [h]
  have htag : (non_obvious_tag_score (wit_other_a.value_chain_positions.getD [])
      (wit_other_b.value_chain_positions.getD [])
      wit_other_a.sector wit_other_b.sector).1 = 0 := rfl
  rw [htag]
  norm_num [py_min, py_max]

/-! ## C10 — the "vice president" entry of the seniority table -/

theorem str_contains_mono {n1 n2 hay : String} (h12 : n1.data <:+: n2.data)
    (h : str_contains hay n2 = true) : str_contains hay n1 = true := by
  simp only [str_contains, decide_eq_true_eq] at h ⊢
  exact h12.trans h

theorem str_contains_false_mono {n1 n2 hay : String}
    (h12 : n1.data <:+: n2.data) (h : str_contains hay n1 = false) :
    str_contains hay n2 = false := by
  cases hc : str_contains hay n2 with
  | false => rfl
  | true => rw [str_contains_mono h12 hc] at h; exact h

theorem findSome?_append_some {α β : Type} {f : α → Option β} {l1 : List α}
    (l2 : List α) {v : β} (h : l1.findSome? f = some v) :
    (l1 ++ l2).findSome? f = some v := by
  induction l1 with
  | nil => simp [List.findSome?_nil] at h
  | cons x xs ih =>
    rw [List.cons_append]
    rw [List.findSome?_cons] at h ⊢
    cases hx : f x with
    | some w => rw [hx] at h; exact h
    | none => rw [hx] at h; exact ih h

theorem findSome?_append_none {α β : Type} {f : α → Option β} {l1 : List α}
    (l2 : List α) (h : l1.findSome? f = none) :
    (l1 ++ l2).findSome? f = l2.findSome? f := by
  induction l1 with
  | nil => rfl
  | cons x xs ih =>
    rw [List.cons_append]
    rw [List.findSome?_cons] at h ⊢
    cases hx : f x with
    | some w => rw [hx] at h; simp at h
    | none => rw [hx] at h; exact ih h

/-- C10 counterexample: "CTO and Vice President" contains "vice president"
after lowering, yet `infer_mandate_score` returns 0.85 (the "cto" entry
precedes "president" in the table), not the 0.9 the claim asserts for
every title containing "vice president". -/
theorem c10_vice_president_counterexample :
    str_contains (py_lower "CTO and Vice President") "vice president" = true ∧
    infer_mandate_score "CTO and Vice President" = 17/20 ∧
    infer_mandate_score "CTO and Vice President" ≠ 9/10 := by
  have h : infer_mandate_score "CTO and Vice President" = 17/20 := rfl
  refine ⟨by decide, h, ?_⟩
  rw [h]
  norm_num

/-- C10 amended: a title containing "vice president" scores 0.9 — via the
earlier "president" entry — provided none of the table entries before
"president" (ceo, cfo, cto, coo, cio, founder; co-founder is subsumed by
founder) occurs in it; and the ("vice president", 0.7) table entry is
unreachable for every input: removing it never changes the function. -/
theorem c10_vice_president_entry :
    (∀ title : String,
      str_contains (py_lower title) "vice president" = true →
      str_contains (py_lower title) "ceo" = false →
      str_contains (py_lower title) "cfo" = false →
      str_contains (py_lower title) "cto" = false →
      str_contains (py_lower title) "coo" = false →
      str_contains (py_lower title) "cio" = false →
      str_contains (py_lower title) "founder" = false →
      infer_mandate_score title = 9/10) ∧
    (∀ title : String,
      infer_mandate_score title =
        scan_seniority TITLE_SENIORITY_NO_VP (py_lower title)) := by
  constructor
  · intro title hvp h1 h2 h3 h4 h5 h6
    have hcof : str_contains (py_lower title) "co-founder" = false :=
      str_contains_false_mono (by decide) h6
    have hpres : str_contains (py_lower title) "president" = true :=
      str_contains_mono (by decide) hvp
    unfold infer_mandate_score scan_seniority TITLE_SENIORITY
    simp [h1, h2, h3, h4, h5, h6, hcof, hpres]
  · intro title
    unfold infer_mandate_score scan_seniority
    have hfull : TITLE_SENIORITY =
        SENIORITY_PRE ++ (("vice president", (7:ℚ)/10) :: SENIORITY_POST) := rfl
    have hnovp : TITLE_SENIORITY_NO_VP = SENIORITY_PRE ++ SENIORITY_POST := rfl
    rw [hfull, hnovp]
    cases hpre : SENIORITY_PRE.findSome? (fun ks =>
        if str_contains (py_lower title) ks.1 then some ks.2 else none) with
    | some v =>
      rw [findSome?_append_some _ hpre, findSome?_append_some _ hpre]
    | none =>
      rw [findSome?_append_none _ hpre, findSome?_append_none _ hpre]
      have hmem : (("president", (9:ℚ)/10)) ∈ SENIORITY_PRE :=
        .tail _ (.tail _ (.tail _ (.tail _ (.tail _ (.tail _ (.tail _ (.head _)))))))
      have hentry := List.findSome?_eq_none_iff.mp hpre _ hmem
      have hp : str_contains (py_lower title) "president" = false := by
        cases hc : str_contains (py_lower title) "president" with
        | false => rfl
        | true => rw [hc] at hentry; simp at hentry
      have hvp : str_contains (py_lower title) "vice president" = false :=
        str_contains_false_mono (by decide) hp
      rw [List.findSome?_cons]
      simp [hvp]

/-- C10 amended witness: a plain "Vice President of Sales" title scores
0.9 through the "president" entry. -/
theorem c10_vice_president_entry_witness :
    infer_mandate_score "Vice President of Sales" = 9/10 :=
  (c10_vice_president_entry).1 "Vice President of Sales"
    (by decide) (by decide) (by decide) (by decide) (by decide) (by decide)
    (by decide)

/-! ## C2 — briefing invariants of the orchestrator -/

theorem mem_dict_insert {α β : Type} [DecidableEq α] {k : α} {v : β}
    {d : List (α × β)} {kv : α × β} (h : kv ∈ dict_insert k v d) :
    kv = (k, v) ∨ kv ∈ d := by
  induction d with
  | nil => simpa [dict_insert] using h
  | cons hd tl ih =>
    obtain ⟨k', v'⟩ := hd
    simp only [dict_insert] at h
    by_cases hk : k' = k
    · rw [if_pos hk] at h
      rcases List.mem_cons.mp h with h1 | h2
      · exact Or.inl h1
      · exact Or.inr (List.mem_cons_of_mem _ h2)
    · rw [if_neg hk] at h
      rcases List.mem_cons.mp h with h1 | h2
      · exact Or.inr (h1 ▸ List.mem_cons_self _ _)
      · rcases ih h2 with h3 | h4
        · exact Or.inl h3
        · exact Or.inr (List.mem_cons_of_mem _ h4)

theorem pair_scores_fold_mem (sim : String → String → ℚ) (s : Settings)
    (l : List (AttendeeProfile × AttendeeProfile × Option String)) :
    ∀ (d : List ((String × String) × ScoredPair)),
      (∀ kv ∈ d, kv.2.attendee_a_id = kv.1.1 ∧ kv.2.attendee_b_id = kv.1.2 ∧
        kv.1.1 ≠ kv.1.2) →
      (∀ x ∈ l, x.1.id ≠ x.2.1.id) →
      ∀ kv ∈ l.foldl (fun d abt => dict_insert (abt.1.id, abt.2.1.id)
          (score_pair sim s abt.1 abt.2.1 abt.2.2) d) d,
        kv.2.attendee_a_id = kv.1.1 ∧ kv.2.attendee_b_id = kv.1.2 ∧
          kv.1.1 ≠ kv.1.2 := by
  induction l with
  | nil => intro d hd _ kv h; exact hd kv h
  | cons x xs ih =>
    intro d hd hl kv h
    rw [List.foldl_cons] at h
    refine ih _ ?_ (fun y hy => hl y (List.mem_cons_of_mem _ hy)) kv h
    intro kv' h'
    rcases mem_dict_insert h' with h1 | h2
    · subst h1
      exact ⟨rfl, rfl, hl x (List.mem_cons_self _ _)⟩
    · exact hd kv' h2

theorem scoreable_pairs_ne (enriched : List AttendeeProfile) :
    ∀ x ∈ scoreable_pairs enriched, x.1.id ≠ x.2.1.id := by
  intro x hx
  simp only [scoreable_pairs, List.mem_flatMap, List.mem_map,
    List.mem_filter] at hx
  obtain ⟨a, _, b, ⟨_, hbne⟩, rfl⟩ := hx
  simpa using hbne

theorem pair_scores_mem (sim : String → String → ℚ) (s : Settings)
    (enriched : List AttendeeProfile) :
    ∀ kv ∈ pair_scores sim s enriched,
      kv.2.attendee_a_id = kv.1.1 ∧ kv.2.attendee_b_id = kv.1.2 ∧
        kv.1.1 ≠ kv.1.2 := by
  intro kv h
  exact pair_scores_fold_mem sim s (scoreable_pairs enriched) []
    (by intro kv' h'; simp at h') (scoreable_pairs_ne enriched) kv h

theorem mem_candidates_for (sim : String → String → ℚ) (s : Settings)
    (enriched : List AttendeeProfile) (aid : String) :
    ∀ sp ∈ candidates_for (pair_scores sim s enriched) aid,
      sp.attendee_a_id = aid ∧ sp.attendee_b_id ≠ aid := by
  intro sp hsp
  simp only [candidates_for, List.mem_map, List.mem_filter] at hsp
  obtain ⟨kv, ⟨hkv, heq⟩, rfl⟩ := hsp
  have hp := pair_scores_mem sim s enriched kv hkv
  have haid : kv.1.1 = aid := by simpa using heq
  refine ⟨hp.1.trans haid, ?_⟩
  rw [hp.2.1]
  intro hc
  exact hp.2.2 (haid.trans hc.symm)

theorem mem_ordered_insert_desc {x y : ScoredPair} {l : List ScoredPair} :
    y ∈ ordered_insert_desc x l ↔ y = x ∨ y ∈ l := by
  induction l with
  | nil => simp [ordered_insert_desc]
  | cons z zs ih =>
    simp only [ordered_insert_desc]
    by_cases hc : x.composite < z.composite
    · rw [if_pos hc]
      simp only [List.mem_cons, ih]
      tauto
    · rw [if_neg hc]
      simp only [List.mem_cons]

theorem sorted_ordered_insert_desc {x : ScoredPair} {l : List ScoredPair}
    (h : l.Pairwise (fun p q => q.composite ≤ p.composite)) :
    (ordered_insert_desc x l).Pairwise
      (fun p q => q.composite ≤ p.composite) := by
  induction l with
  | nil => simp [ordered_insert_desc]
  | cons z zs ih =>
    rw [List.pairwise_cons] at h
    obtain ⟨hz, hzs⟩ := h
    simp only [ordered_insert_desc]
    by_cases hc : x.composite < z.composite
    · rw [if_pos hc, List.pairwise_cons]
      refine ⟨?_, ih hzs⟩
      intro q hq
      rcases mem_ordered_insert_desc.mp hq with rfl | hq'
      · exact le_of_lt hc
      · exact hz q hq'
    · rw [if_neg hc, List.pairwise_cons]
      push_neg at hc
      refine ⟨?_, List.pairwise_cons.mpr ⟨hz, hzs⟩⟩
      intro q hq
      rcases List.mem_cons.mp hq with rfl | hq'
      · exact hc
      · exact le_trans (hz q hq') hc

theorem sorted_sort_by_composite_desc (l : List ScoredPair) :
    (sort_by_composite_desc l).Pairwise
      (fun p q => q.composite ≤ p.composite) := by
  induction l with
  | nil => simp [sort_by_composite_desc]
  | cons x xs ih => exact sorted_ordered_insert_desc ih

theorem mem_sort_by_composite_desc {y : ScoredPair} {l : List ScoredPair} :
    y ∈ sort_by_composite_desc l ↔ y ∈ l := by
  induction l with
  | nil => simp [sort_by_composite_desc]
  | cons x xs ih =>
    simp only [sort_by_composite_desc, mem_ordered_insert_desc, List.mem_cons, ih]

theorem filter_ordered_insert_desc (c : ℚ) (x : ScoredPair)
    (l : List ScoredPair) :
    (ordered_insert_desc x l).filter (fun sp => sp.composite == c) =
      if x.composite == c
      then x :: l.filter (fun sp => sp.composite == c)
      else l.filter (fun sp => sp.composite == c) := by
  induction l with
  | nil =>
    simp only [ordered_insert_desc, List.filter_cons, List.filter_nil]
  | cons z zs ih =>
    simp only [ordered_insert_desc]
    by_cases hc : x.composite < z.composite
    · rw [if_pos hc]
      by_cases hx : x.composite = c <;> by_cases hz : z.composite = c
      · exact absurd hc (by simp [hx, hz])
      · simp [List.filter_cons, ih, hx, hz]
      · simp [List.filter_cons, ih, hx, hz]
      · simp [List.filter_cons, ih, hx, hz]
    · rw [if_neg hc]
      by_cases hx : x.composite = c <;> simp [List.filter_cons, hx]

theorem filter_sort_by_composite_desc (c : ℚ) (l : List ScoredPair) :
    (sort_by_composite_desc l).filter (fun sp => sp.composite == c) =
      l.filter (fun sp => sp.composite == c) := by
  induction l with
  | nil => rfl
  | cons x xs ih =>
    simp only [sort_by_composite_desc, filter_ordered_insert_desc, ih,
      List.filter_cons]

theorem briefing_for_pairs (explain : ScoredPair → AttendeeProfile →
      Option AttendeeProfile → String × DimensionExplanations)
    (d : List ((String × String) × ScoredPair))
    (pm : List (String × AttendeeProfile)) (k : Nat)
    (skip_explanations : Bool) (attendee : AttendeeProfile) :
    (briefing_for explain d pm k skip_explanations attendee).matches_list.map
        MatchResult.pair =
      (sort_by_composite_desc (candidates_for d attendee.id)).take k := by
  simp only [briefing_for, List.map_map]
  cases skip_explanations <;>
    simp [Function.comp_def]

/-- C2: every briefing the orchestrator produces for an attendee has at
most `top_k` (as resolved against the configuration) entries, none of its
pairs has the attendee's own id as second id, and its scored pairs are
exactly the first `top_k` of the stable descending sort of that attendee's
candidate pairs: sorted by composite descending, with ties preserving the
pair-generation order (insertion order over the second attendee). -/
theorem c2_briefing_invariants (sim : String → String → ℚ) (s : Settings)
    (extract : AttendeeProfile → AttendeeProfile)
    (explain : ScoredPair → AttendeeProfile → Option AttendeeProfile →
      String × DimensionExplanations)
    (profiles : List AttendeeProfile) (top_k : Option Nat)
    (skip_explanations : Bool) (br : MatchBriefing)
    (hbr : br ∈ run sim s extract explain profiles top_k skip_explanations) :
    br.matches_list.length ≤ resolve_top_k s top_k ∧
    (∀ m ∈ br.matches_list, m.pair.attendee_b_id ≠ br.attendee_id) ∧
    (br.matches_list.map MatchResult.pair).Pairwise
      (fun p q => q.composite ≤ p.composite) ∧
    br.matches_list.map MatchResult.pair =
      (sort_by_composite_desc (candidates_for
        (pair_scores sim s (profiles.map extract)) br.attendee_id)).take
        (resolve_top_k s top_k) ∧
    (∀ c : ℚ,
      (sort_by_composite_desc (candidates_for
        (pair_scores sim s (profiles.map extract)) br.attendee_id)).filter
        (fun sp => sp.composite == c) =
      (candidates_for (pair_scores sim s (profiles.map extract))
        br.attendee_id).filter (fun sp => sp.composite == c)) := by
  simp only [run, List.mem_map] at hbr
  obtain ⟨attendee, hatt, rfl⟩ := hbr
  have hid : (briefing_for explain (pair_scores sim s (profiles.map extract))
      (profile_map (profiles.map extract)) (resolve_top_k s top_k)
      skip_explanations attendee).attendee_id = attendee.id := rfl
  have hpairs := briefing_for_pairs explain
    (pair_scores sim s (profiles.map extract))
    (profile_map (profiles.map extract)) (resolve_top_k s top_k)
    skip_explanations attendee
  rw [hid]
  refine ⟨?_, ?_, ?_, hpairs, fun c => filter_sort_by_composite_desc c _⟩
  · have hlen : (briefing_for explain (pair_scores sim s (profiles.map extract))
        (profile_map (profiles.map extract)) (resolve_top_k s top_k)
        skip_explanations attendee).matches_list.length =
        ((sort_by_composite_desc (candidates_for
          (pair_scores sim s (profiles.map extract)) attendee.id)).take
          (resolve_top_k s top_k)).length := by
      rw [← hpairs, List.length_map]
    rw [hlen, List.length_take]
    exact min_le_left _ _
  · intro m hm
    have hpmem : m.pair ∈ (briefing_for explain
        (pair_scores sim s (profiles.map extract))
        (profile_map (profiles.map extract)) (resolve_top_k s top_k)
        skip_explanations attendee).matches_list.map MatchResult.pair :=
      List.mem_map_of_mem _ hm
    rw [hpairs] at hpmem
    have h1 : m.pair ∈ sort_by_composite_desc (candidates_for
        (pair_scores sim s (profiles.map extract)) attendee.id) :=
      (List.take_sublist _ _).mem hpmem
    have h2 := mem_sort_by_composite_desc.mp h1
    exact (mem_candidates_for sim s (profiles.map extract) attendee.id
      m.pair h2).2
  · rw [hpairs]
    exact List.Pairwise.take (sorted_sort_by_composite_desc _)

/-- C2 witness: the pipeline on a single profile yields one briefing with
an empty match list, trivially within the bound. -/
theorem c2_briefing_invariants_witness :
    ((run zero_sim defaultSettings (fun p => p) wit_explain [wit_other_a]
        (some 2) true).headD
      { attendee_id := "", attendee_name := "" }).matches_list.length ≤ 2 := by
  have hmem : (run zero_sim defaultSettings (fun p => p) wit_explain
      [wit_other_a] (some 2) true).headD
      { attendee_id := "", attendee_name := "" } ∈
      run zero_sim defaultSettings (fun p => p) wit_explain [wit_other_a]
        (some 2) true := by decide
  have h := (c2_briefing_invariants zero_sim defaultSettings (fun p => p)
    wit_explain [wit_other_a] (some 2) true _ hmem).1
  simpa [resolve_top_k] using h

end Pot
